import Mathlib

/-!
Shallow embedding of the `gdocs_mcp` package (Google Drive MCP adapter):
`src/gdocs_mcp/drive.py` (document client), `src/gdocs_mcp/auth.py`
(credential store) and `src/gdocs_mcp/server.py` (tool adapter).

The remote Google Drive API is modelled as an environment `DriveEnv` whose
fields give the outcome of each kind of remote call; each embedded
operation also returns the list of remote calls it issued, so that
"no retry" statements can be made about the call trace.  Python
exceptions are modelled with `Except`; the `HttpError` raised by the
Google client library carries a message string, and the `RuntimeError`
raised by `drive.py` carries its formatted message string.
-/

namespace GdocsMcp

/-- Model of `googleapiclient.errors.HttpError`, by its message string. -/
structure HttpError where
  msg : String
deriving Repr, DecidableEq

/-- Python `RuntimeError`, modelled by its message string. -/
structure RuntimeErr where
  msg : String
deriving Repr, DecidableEq

/-- A byte payload returned by a media download: either bytes that decode
as UTF-8 to a string, or bytes on which `.decode("utf-8")` raises
`UnicodeDecodeError`. -/
inductive Bytes
  | utf8 (s : String)
  | binary
deriving Repr, DecidableEq

/-- One entry of the `files` array of a Drive `files().list` response,
restricted to the fields requested by `drive.py`
(`files(id, name, mimeType, description, modifiedTime, webViewLink)`).
`id`, `name`, `mimeType` are always present for a Drive file; the rest
are optional and read with `.get(key, "")`. -/
structure DriveFile where
  id : String
  name : String
  mimeType : String
  modifiedTime : Option String
  description : Option String
  webViewLink : Option String
deriving Repr, DecidableEq

/-- A `files().get` metadata response with
`fields="id, name, mimeType, modifiedTime"`.  `mimeType` and
`modifiedTime` are read with `.get`, `id` and `name` by direct indexing. -/
structure FileMetadata where
  id : String
  name : String
  mimeType : Option String
  modifiedTime : Option String
deriving Repr, DecidableEq

/-- One remote Drive API call, as issued by `drive.py`. -/
inductive ApiCall
  | filesList (q : String) (pageSize : Nat)
  | filesGet (fileId : String)
  | filesExport (fileId : String) (mimeType : String)
  | getMedia (fileId : String)
deriving Repr, DecidableEq

/-- The remote Drive API, as an oracle giving the outcome of each call. -/
structure DriveEnv where
  filesList : String → Nat → Except HttpError (List DriveFile)
  filesGet : String → Except HttpError FileMetadata
  filesExport : String → String → Except HttpError String
  getMedia : String → Except HttpError Bytes

/-- Embeds drive.py `MIME_TYPES`: insertion-ordered dict of user-facing kind to
Drive MIME type. -/
def MIME_TYPES : List (String × String) :=
  [("document", "application/vnd.google-apps.document"),
   ("spreadsheet", "application/vnd.google-apps.spreadsheet"),
   ("presentation", "application/vnd.google-apps.presentation"),
   ("folder", "application/vnd.google-apps.folder")]

/-- Python `MIME_TYPES[key]` (every key used in the source is present). -/
def mimeOf (key : String) : String :=
  (((MIME_TYPES.find? (fun p => p.1 == key)).map (fun p => p.2)).getD "")

/-- Embeds drive.py `_get_file_type`: MIME type to user-friendly type, with
dict-`.get` default `"file"`. -/
def _get_file_type (mime_type : String) : String :=
  if mime_type == mimeOf "document" then "document"
  else if mime_type == mimeOf "spreadsheet" then "spreadsheet"
  else if mime_type == mimeOf "presentation" then "presentation"
  else if mime_type == mimeOf "folder" then "folder"
  else "file"

/-- The `mime_filter` string built identically in `_search_docs_sync` and
`_list_documents_sync`:
`" or ".join(f"mimeType='{mime}'" for mime in MIME_TYPES.values() if mime != MIME_TYPES["folder"])`. -/
def mime_filter : String :=
  String.intercalate " or "
    (((MIME_TYPES.map (fun p => p.2)).filter (fun mime => mime != mimeOf "folder")).map
      (fun mime => "mimeType='" ++ mime ++ "'"))

/-- The descriptor dict built from a response file by `_search_docs_sync`
and `_list_documents_sync`. -/
structure DocDescriptor where
  id : String
  name : String
  type : String
  modified : String
  description : String
  url : String
deriving Repr, DecidableEq

/-- The per-file mapping in the list comprehensions of `_search_docs_sync`
and `_list_documents_sync`. -/
def fileToDescriptor (file : DriveFile) : DocDescriptor :=
  { id := file.id
    name := file.name
    type := _get_file_type file.mimeType
    modified := file.modifiedTime.getD ""
    description := file.description.getD ""
    url := file.webViewLink.getD "" }

/-- The `full_query` string of `_search_docs_sync`. -/
def search_query (query : String) : String :=
  "(" ++ mime_filter ++ ") and (name contains '" ++ query ++
    "' or fullText contains '" ++ query ++ "')"

/-- Embeds drive.py `_search_docs_sync`.  Returns the result (or the
`RuntimeError` raised from a caught `HttpError`) together with the trace
of remote calls issued. -/
def _search_docs_sync (env : DriveEnv) (query : String) (max_results : Nat) :
    Except RuntimeErr (List DocDescriptor) × List ApiCall :=
  let q := search_query query
  match env.filesList q max_results with
  | .ok files => (.ok (files.map fileToDescriptor), [.filesList q max_results])
  | .error e =>
      (.error ⟨"Failed to search Google Drive: " ++ e.msg⟩, [.filesList q max_results])

/-- Python `str.lower()` (ASCII case folding, as exercised by the format
strings involved), computed on the character list. -/
def str_lower (s : String) : String :=
  String.mk (s.data.map Char.toLower)

/-- Model of the third-party python-markdown function `markdown.markdown`,
called by `_html_to_markdown`.  It is a Markdown-to-HTML renderer (not an
HTML-to-Markdown converter): a raw block-level HTML input such as
`<p>...</p>` passes through unchanged, and plain text is wrapped in a
paragraph tag.  Either way its output is HTML. -/
def markdown_markdown (s : String) : String :=
  if List.isPrefixOf "<p>".data s.data then s else "<p>" ++ s ++ "</p>"

/-- Embeds drive.py `_html_to_markdown`: calls `markdown.markdown` on the HTML
content (returning the input unchanged if that raises). -/
def _html_to_markdown (html_content : String) : String :=
  markdown_markdown html_content

/-- Embeds drive.py `_export_document`: chooses the export MIME type from the
lowercased format; for `"markdown"` exports HTML and converts it via
`_html_to_markdown`. -/
def _export_document (env : DriveEnv) (doc_id : String) (format : String) :
    Except HttpError String × List ApiCall :=
  if str_lower format == "html" then
    (env.filesExport doc_id "text/html", [.filesExport doc_id "text/html"])
  else if str_lower format == "markdown" then
    match env.filesExport doc_id "text/html" with
    | .ok html_content => (.ok (_html_to_markdown html_content), [.filesExport doc_id "text/html"])
    | .error e => (.error e, [.filesExport doc_id "text/html"])
  else
    (env.filesExport doc_id "text/plain", [.filesExport doc_id "text/plain"])

/-- Embeds drive.py `_export_spreadsheet`: CSV export, falling back to plain-text
export when the CSV export raises `HttpError`. -/
def _export_spreadsheet (env : DriveEnv) (sheet_id : String) :
    Except HttpError String × List ApiCall :=
  match env.filesExport sheet_id "text/csv" with
  | .ok content => (.ok content, [.filesExport sheet_id "text/csv"])
  | .error _ =>
      match env.filesExport sheet_id "text/plain" with
      | .ok content =>
          (.ok content, [.filesExport sheet_id "text/csv", .filesExport sheet_id "text/plain"])
      | .error e =>
          (.error e, [.filesExport sheet_id "text/csv", .filesExport sheet_id "text/plain"])

/-- Embeds drive.py `_export_presentation`: plain-text export, returning a fixed
placeholder sentence when the export raises `HttpError` (never raises). -/
def _export_presentation (env : DriveEnv) (slide_id : String) :
    String × List ApiCall :=
  match env.filesExport slide_id "text/plain" with
  | .ok content => (content, [.filesExport slide_id "text/plain"])
  | .error _ =>
      ("[This presentation cannot be exported as text. Please view it in Google Slides.]",
       [.filesExport slide_id "text/plain"])

/-- Embeds drive.py `_get_file_content`: media download; returns the UTF-8
decoding, a binary placeholder on `UnicodeDecodeError`, or an error
placeholder when the download raises `HttpError` (never raises). -/
def _get_file_content (env : DriveEnv) (file_id : String) :
    String × List ApiCall :=
  match env.getMedia file_id with
  | .ok (Bytes.utf8 s) => (s, [.getMedia file_id])
  | .ok Bytes.binary => ("[Binary content not displayed]", [.getMedia file_id])
  | .error _ => ("[Error retrieving file content]", [.getMedia file_id])

/-- The `read` result dict of `_read_document_sync`. -/
structure DocContent where
  id : String
  name : String
  type : String
  modified : String
  content : String
deriving Repr, DecidableEq

/-- The if/elif dispatch of `_read_document_sync` that assigns `content`
from the file's MIME type (document, spreadsheet, presentation, or other
file). -/
def read_step (env : DriveEnv) (doc_id : String) (format : String) (mime_type : String) :
    Except HttpError String × List ApiCall :=
  if mime_type == mimeOf "document" then
    _export_document env doc_id format
  else if mime_type == mimeOf "spreadsheet" then
    _export_spreadsheet env doc_id
  else if mime_type == mimeOf "presentation" then
    let p := _export_presentation env doc_id
    (.ok p.1, p.2)
  else
    let p := _get_file_content env doc_id
    (.ok p.1, p.2)

/-- Embeds drive.py `_read_document_sync`: metadata fetch, then export dispatch
on MIME type (`read_step`); any `HttpError` escaping the body is
re-raised as a `RuntimeError` carrying its message. -/
def _read_document_sync (env : DriveEnv) (doc_id : String) (format : String) :
    Except RuntimeErr DocContent × List ApiCall :=
  match env.filesGet doc_id with
  | .error e =>
      (.error ⟨"Failed to read document from Google Drive: " ++ e.msg⟩, [.filesGet doc_id])
  | .ok file_metadata =>
      let mime_type := file_metadata.mimeType.getD ""
      match read_step env doc_id format mime_type with
      | (.ok content, calls) =>
          (.ok { id := file_metadata.id
                 name := file_metadata.name
                 type := _get_file_type mime_type
                 modified := file_metadata.modifiedTime.getD ""
                 content := content },
           .filesGet doc_id :: calls)
      | (.error e, calls) =>
          (.error ⟨"Failed to read document from Google Drive: " ++ e.msg⟩,
           .filesGet doc_id :: calls)

/-- Python truthiness of the `Optional[str]` argument `folder_id`
(`None` and `""` are falsy). -/
def pyTruthy : Option String → Bool
  | none => false
  | some s => !(s == "")

/-- The `query` string of `_list_documents_sync`: folder filter added only
when `folder_id` is truthy. -/
def list_query (folder_id : Option String) : String :=
  if pyTruthy folder_id then
    "(" ++ mime_filter ++ ") and '" ++ folder_id.getD "" ++ "' in parents"
  else
    "(" ++ mime_filter ++ ")"

/-- Embeds drive.py `_list_documents_sync`. -/
def _list_documents_sync (env : DriveEnv) (folder_id : Option String) (max_results : Nat) :
    Except RuntimeErr (List DocDescriptor) × List ApiCall :=
  let q := list_query folder_id
  match env.filesList q max_results with
  | .ok files => (.ok (files.map fileToDescriptor), [.filesList q max_results])
  | .error e =>
      (.error ⟨"Failed to list documents from Google Drive: " ++ e.msg⟩, [.filesList q max_results])

/-!
Credential store (`auth.py`).  `google.oauth2.credentials.Credentials` is
modelled by the fields `auth.py` consults: the access token, the refresh
token and the expiry flag; `valid` is the google-auth property
`token is not None and not expired`.  File-system and network outcomes
(token file contents, refresh call, interactive flow) come from an
`AuthEnv` oracle, and the side effects performed (refresh calls, token
saves, flow runs) are returned as an event trace.
-/

/-- Model of `google.oauth2.credentials.Credentials`, restricted to the fields
`auth.py` consults. -/
structure Credentials where
  token : Option String
  refresh_token : Option String
  expired : Bool
deriving Repr, DecidableEq

/-- The google-auth property `Credentials.valid`: a token is present and not expired. -/
def Credentials.valid (c : Credentials) : Bool :=
  c.token.isSome && !c.expired

/-- Outcomes of the credential store's external interactions. -/
structure AuthEnv where
  /-- Contents of `token.json`: `none` when absent, `some (.error _)` when reading or
  parsing it raises, `some (.ok c)` when it loads as credentials `c`. -/
  token_file : Option (Except String Credentials)
  /-- Outcome of `credentials.refresh(request)`: the refreshed
  credentials, or the exception message when the refresh raises. -/
  refresh_result : Except String Credentials
  /-- Whether the client-secret file `credentials.json` exists. -/
  credentials_file_exists : Bool
  /-- Outcome of `flow.run_local_server(port=0)` (or of building the flow
  from the client-secret file, when that raises). -/
  flow_result : Except String Credentials

/-- A side effect performed by the credential store. -/
inductive AuthEvent
  | refreshCall
  | saveToken (c : Credentials)
  | flowRun
deriving Repr, DecidableEq

/-- Embeds auth.py `_save_token`: writes the token file when credentials are
present (a write failure is caught and logged, changing nothing). -/
def _save_token : Option Credentials → List AuthEvent
  | some c => [.saveToken c]
  | none => []

/-- Embeds auth.py `_authenticate`: returns without touching the credentials when
the client-secret file is missing; on a successful flow stores and saves
the new credentials; when the flow raises, the handler sets the
credentials to `None`. -/
def _authenticate (env : AuthEnv) (prev : Option Credentials) :
    Option Credentials × List AuthEvent :=
  if !env.credentials_file_exists then (prev, [])
  else
    match env.flow_result with
    | .ok c => (some c, .flowRun :: _save_token (some c))
    | .error _ => (none, [.flowRun])

/-- Embeds auth.py `_load_credentials`: loads the token file if present;
refreshes (and saves) when expired with a refresh token; falls back to
`_authenticate` when the resulting credentials are missing or invalid.
An exception while parsing or refreshing is caught by the outer handler,
which sets the credentials to `None` (skipping `_authenticate`). -/
def _load_credentials (env : AuthEnv) : Option Credentials × List AuthEvent :=
  match env.token_file with
  | some (.error _) => (none, [])
  | some (.ok c) =>
      if c.expired && c.refresh_token.isSome then
        match env.refresh_result with
        | .error _ => (none, [.refreshCall])
        | .ok c' =>
            let ev0 : List AuthEvent := .refreshCall :: _save_token (some c')
            if c'.valid then (some c', ev0)
            else
              let (r, ev1) := _authenticate env (some c')
              (r, ev0 ++ ev1)
      else
        if c.valid then (some c, [])
        else _authenticate env (some c)
  | none => _authenticate env none

/-- Embeds auth.py `get_credentials`: runs `_authenticate` only when no
credentials object is held, then returns whatever is held (with no
validity or expiry check). -/
def get_credentials (env : AuthEnv) (cur : Option Credentials) :
    Option Credentials × List AuthEvent :=
  match cur with
  | some c => (some c, [])
  | none => _authenticate env none

/-!
Document client service management (`drive.py`).  The Drive service built
by `googleapiclient.discovery.build` is modelled by the credentials it was
built with (`none` = no service).
-/

/-- Embeds drive.py `_initialize_service`: obtains credentials from the auth
manager and builds the service iff a (truthy) credentials object came
back; returns the service, the manager's updated credentials and the
trace.  Note the guard is only on presence, not on validity. -/
def init_service (env : AuthEnv) (mgrCred : Option Credentials) :
    Option Credentials × Option Credentials × List AuthEvent :=
  let (c, ev) := get_credentials env mgrCred
  (c, c, ev)

/-- The mutable state of a `GoogleDriveClient` and its auth manager. -/
structure ClientState where
  service : Option Credentials
  mgr : Option Credentials
deriving Repr, DecidableEq

/-- Embeds `GoogleAuthManager.__init__` (which runs `_load_credentials`) followed
by `GoogleDriveClient.__init__` (which runs `_initialize_service`). -/
def clientInit (env : AuthEnv) : ClientState × List AuthEvent :=
  let (mgr0, ev0) := _load_credentials env
  let (svc, mgr1, ev1) := init_service env mgr0
  ({ service := svc, mgr := mgr1 }, ev0 ++ ev1)

/-- The guard at the top of `search_docs`, `read_document` and
`list_documents`: if no service is held, re-run `_initialize_service`;
if still none, raise `RuntimeError("Google Drive API service not
available")`. -/
def ensure_service (env : AuthEnv) (st : ClientState) :
    Except RuntimeErr Credentials × ClientState :=
  match st.service with
  | some c => (.ok c, st)
  | none =>
      let (svc, mgr, _) := init_service env st.mgr
      match svc with
      | some c => (.ok c, ⟨some c, mgr⟩)
      | none => (.error ⟨"Google Drive API service not available"⟩, ⟨none, mgr⟩)

/-- Embeds drive.py `search_docs` (async wrapper): service guard, then the
synchronous search on a worker thread. -/
def search_docs (aenv : AuthEnv) (denv : DriveEnv) (st : ClientState)
    (query : String) (max_results : Nat := 10) :
    Except RuntimeErr (List DocDescriptor) × List ApiCall :=
  match (ensure_service aenv st).1 with
  | .ok _ => _search_docs_sync denv query max_results
  | .error e => (.error e, [])

/-- Embeds drive.py `read_document` (async wrapper): service guard, then the
synchronous read on a worker thread. -/
def read_document (aenv : AuthEnv) (denv : DriveEnv) (st : ClientState)
    (doc_id : String) (format : String := "markdown") :
    Except RuntimeErr DocContent × List ApiCall :=
  match (ensure_service aenv st).1 with
  | .ok _ => _read_document_sync denv doc_id format
  | .error e => (.error e, [])

/-- Embeds drive.py `list_documents` (async wrapper): service guard, then the
synchronous listing on a worker thread. -/
def list_documents (aenv : AuthEnv) (denv : DriveEnv) (st : ClientState)
    (folder_id : Option String := none) (max_results : Nat := 20) :
    Except RuntimeErr (List DocDescriptor) × List ApiCall :=
  match (ensure_service aenv st).1 with
  | .ok _ => _list_documents_sync denv folder_id max_results
  | .error e => (.error e, [])

/-!
Tool adapter (`server.py`).  `GoogleDocsMCPServer.__init__` registers
three tools by name; each handler forwards to the drive client and wraps
the result in a one-key dict, modelled by `Envelope`.
-/

/-- A single `self.tool(name=..., description=...)` registration. -/
structure ToolReg where
  name : String
  description : String
deriving Repr, DecidableEq

/-- The tool registrations performed by `GoogleDocsMCPServer.__init__`,
in order. -/
def registered_tools : List ToolReg :=
  [⟨"gdocs_search", "Search for Google Docs by query"⟩,
   ⟨"gdocs_read", "Read a Google Doc by ID"⟩,
   ⟨"gdocs_list", "List Google Docs in a folder"⟩]

/-- The one-key response dicts of the three handlers:
`{"results": ...}`, `{"content": ...}`, `{"docs": ...}`. -/
inductive Envelope
  | results (xs : List DocDescriptor)
  | content (c : DocContent)
  | docs (xs : List DocDescriptor)
deriving Repr, DecidableEq

/-- Embeds server.py `gdocs_search`: forwards to `drive_client.search_docs` and
wraps the result as `{"results": results}`. -/
def gdocs_search (aenv : AuthEnv) (denv : DriveEnv) (st : ClientState)
    (query : String) (max_results : Nat := 10) :
    Except RuntimeErr Envelope :=
  (search_docs aenv denv st query max_results).1.map Envelope.results

/-- Embeds server.py `gdocs_read`: forwards to `drive_client.read_document` and
wraps the result as `{"content": content}`. -/
def gdocs_read (aenv : AuthEnv) (denv : DriveEnv) (st : ClientState)
    (doc_id : String) (format : String := "markdown") :
    Except RuntimeErr Envelope :=
  (read_document aenv denv st doc_id format).1.map Envelope.content

/-- Embeds server.py `gdocs_list`: forwards to `drive_client.list_documents` and
wraps the result as `{"docs": docs}`. -/
def gdocs_list (aenv : AuthEnv) (denv : DriveEnv) (st : ClientState)
    (folder_id : Option String := none) (max_results : Nat := 20) :
    Except RuntimeErr Envelope :=
  (list_documents aenv denv st folder_id max_results).1.map Envelope.docs

/-!
Concrete environments used by the witness and counterexample theorems
below, and a spec-side rendering of the search filter.
-/

/-- Written from the spec's words (refinement target for the search
filter): a remote query restricted to exactly the three supported
document types — document, spreadsheet, presentation, never folder —
matching the query against name or full text. -/
def search_query_spec (query : String) : String :=
  "(mimeType='application/vnd.google-apps.document' or mimeType='application/vnd.google-apps.spreadsheet' or mimeType='application/vnd.google-apps.presentation') and (name contains '" ++
    query ++ "' or fullText contains '" ++ query ++ "')"

/-- A document-type file whose HTML export is `<p>Hello <b>World</b></p>`. -/
def envC1 : DriveEnv :=
  { filesList := fun _ _ => .ok []
    filesGet := fun _ =>
      .ok ⟨"d1", "Quarterly Report", some "application/vnd.google-apps.document",
        some "2024-01-01T00:00:00Z"⟩
    filesExport := fun _ mt =>
      if mt == "text/html" then .ok "<p>Hello <b>World</b></p>" else .ok "Hello World\n"
    getMedia := fun _ => .error ⟨"unused"⟩ }

/-- A non-Google file whose media download fails with an `HttpError`. -/
def envC2 : DriveEnv :=
  { filesList := fun _ _ => .ok []
    filesGet := fun _ => .ok ⟨"f1", "notes.txt", some "text/plain", some "2024-02-02T00:00:00Z"⟩
    filesExport := fun _ _ => .error ⟨"unused"⟩
    getMedia := fun _ => .error ⟨"HttpError 403 rate limit"⟩ }

/-- A remote API where every call fails with the message `boom`. -/
def envErr : DriveEnv :=
  { filesList := fun _ _ => .error ⟨"boom"⟩
    filesGet := fun _ => .error ⟨"boom"⟩
    filesExport := fun _ _ => .error ⟨"boom"⟩
    getMedia := fun _ => .error ⟨"boom"⟩ }

/-- An expired credential with no refresh token. -/
def expiredCred : Credentials :=
  { token := some "stale-token", refresh_token := none, expired := true }

/-- An auth environment whose token file holds `expiredCred` (expired, no
refresh token) and whose client-secret file is missing, so neither a
refresh nor an interactive flow can replace it. -/
def aenvC3 : AuthEnv :=
  { token_file := some (.ok expiredCred)
    refresh_result := .error "unused"
    credentials_file_exists := false
    flow_result := .error "unused" }

/-- An auth environment with no token file and no client-secret file: no
credential of any kind can be obtained. -/
def aenvNoAuth : AuthEnv :=
  { token_file := none
    refresh_result := .error "unused"
    credentials_file_exists := false
    flow_result := .error "unused" }

/-- A remote API returning an empty listing and failing everything else. -/
def denvEmpty : DriveEnv :=
  { filesList := fun _ _ => .ok []
    filesGet := fun _ => .error ⟨"unused"⟩
    filesExport := fun _ _ => .error ⟨"unused"⟩
    getMedia := fun _ => .error ⟨"unused"⟩ }

/-- An expired persisted credential that has a refresh token. -/
def oldCred : Credentials :=
  { token := some "old-token", refresh_token := some "refresh-1", expired := true }

/-- The credential produced by a successful refresh of `oldCred`. -/
def newCred : Credentials :=
  { token := some "new-token", refresh_token := some "refresh-1", expired := false }

/-- An auth environment whose token file holds `oldCred` and whose refresh
call succeeds with `newCred`. -/
def aenvC4 : AuthEnv :=
  { token_file := some (.ok oldCred)
    refresh_result := .ok newCred
    credentials_file_exists := true
    flow_result := .error "unused" }

/-- Two Drive files of the fixture kinds used by the listing witnesses. -/
def twoFiles : List DriveFile :=
  [⟨"a1", "report A", "application/vnd.google-apps.document", some "2024-03-01", none, none⟩,
   ⟨"a2", "report B", "application/vnd.google-apps.spreadsheet", none, some "budget", none⟩]

/-- A remote API whose listing returns `twoFiles` for every query. -/
def denvList : DriveEnv :=
  { filesList := fun _ _ => .ok twoFiles
    filesGet := fun _ => .error ⟨"unused"⟩
    filesExport := fun _ _ => .error ⟨"unused"⟩
    getMedia := fun _ => .error ⟨"unused"⟩ }

/-- A spreadsheet-type file whose CSV export fails but whose plain-text
export succeeds. -/
def envC6 : DriveEnv :=
  { filesList := fun _ _ => .ok []
    filesGet := fun _ =>
      .ok ⟨"s1", "Budget Sheet", some "application/vnd.google-apps.spreadsheet", some "2024-04-04"⟩
    filesExport := fun _ mt =>
      if mt == "text/csv" then .error ⟨"CSV export out of quota"⟩ else .ok "a,b\n1,2\n"
    getMedia := fun _ => .error ⟨"unused"⟩ }

/-- A remote API whose every export succeeds, echoing the MIME type asked
for, so the export chosen by the client is observable. -/
def envEcho : DriveEnv :=
  { filesList := fun _ _ => .ok []
    filesGet := fun _ => .error ⟨"unused"⟩
    filesExport := fun _ mt => .ok ("exported as " ++ mt)
    getMedia := fun _ => .error ⟨"unused"⟩ }

/-!
Helper lemmas about the remote-call traces.
-/

/-- The export dispatch issues a duplicate-free trace that never repeats
the metadata fetch. -/
lemma read_step_trace (env : DriveEnv) (doc_id format mime_type : String) :
    (read_step env doc_id format mime_type).2.Nodup ∧
    ApiCall.filesGet doc_id ∉ (read_step env doc_id format mime_type).2 := by
  unfold read_step _export_document _export_spreadsheet _export_presentation _get_file_content
  split
  · split
    · simp
    · split
      · rcases he : env.filesExport doc_id "text/html" with e | s <;> simp
      · simp
  · split
    · rcases h1 : env.filesExport doc_id "text/csv" with e1 | s1
      · rcases h2 : env.filesExport doc_id "text/plain" with e2 | s2 <;> simp
      · simp
    · split
      · rcases h1 : env.filesExport doc_id "text/plain" with e1 | s1 <;> simp
      · rcases h1 : env.getMedia doc_id with e1 | b1
        · simp
        · cases b1 <;> simp

/-- A read never issues the same remote call twice. -/
lemma read_trace_nodup (env : DriveEnv) (doc_id format : String) :
    ((_read_document_sync env doc_id format).2).Nodup := by
  unfold _read_document_sync
  rcases h : env.filesGet doc_id with e | m
  · simp
  · simp only
    rcases hs : read_step env doc_id format (m.mimeType.getD "") with ⟨res, calls⟩
    have := read_step_trace env doc_id format (m.mimeType.getD "")
    rw [hs] at this
    rcases res <;> simp_all

/-!
Claim theorems.
-/

/-- C1: the spec requires that reading a document whose HTML export is
`<p>Hello <b>World</b></p>` with format `"markdown"` returns content with
all HTML markup stripped or converted to markdown and never raw HTML
tags.  The code instead calls `markdown.markdown`, a Markdown-to-HTML
renderer, so the raw HTML export passes through unchanged: the returned
content is exactly `<p>Hello <b>World</b></p>`, still containing the raw
tags `<p>` and `<b>` (the code contradicts the `_html_to_markdown`
docstring "Convert HTML content to Markdown"). -/
theorem c1_markdown_read_returns_raw_html :
    envC1.filesExport "d1" "text/html" = .ok "<p>Hello <b>World</b></p>" ∧
    (_read_document_sync envC1 "d1" "markdown").1 =
      .ok ⟨"d1", "Quarterly Report", "document", "2024-01-01T00:00:00Z",
        "<p>Hello <b>World</b></p>"⟩ ∧
    List.IsInfix "<p>".data "<p>Hello <b>World</b></p>".data ∧
    List.IsInfix "<b>".data "<p>Hello <b>World</b></p>".data :=
  ⟨rfl, rfl, by decide, by decide⟩

/-- C2 counterexample: not every remote API error raised during a read is
re-raised as a `RuntimeError`.  For a non-Google file whose media
download fails with an `HttpError`, the read returns a successful result
whose content is the error placeholder, and no error is raised. -/
theorem c2_counterexample_api_error_not_reraised :
    envC2.getMedia "f1" = .error ⟨"HttpError 403 rate limit"⟩ ∧
    (_read_document_sync envC2 "f1" "markdown").1 =
      .ok ⟨"f1", "notes.txt", "file", "2024-02-02T00:00:00Z",
        "[Error retrieving file content]"⟩ :=
  ⟨rfl, rfl⟩

/-- C2 amended: every remote API error that is not recovered by a defined
fallback is caught and re-raised as a `RuntimeError` whose message
carries the original error message — search and list re-raise any listing
error, and read re-raises a metadata-fetch error and an unrecovered
document-export error — and no remote call is ever retried (every
operation's call trace is duplicate-free). -/
theorem c2_amended_unrecovered_errors_reraised_no_retry (denv : DriveEnv)
    (q : String) (n : Nat) (fid : Option String) (doc_id fmt : String)
    (meta : FileMetadata) (e : HttpError) :
    (denv.filesList (search_query q) n = .error e →
      _search_docs_sync denv q n =
        (.error ⟨"Failed to search Google Drive: " ++ e.msg⟩,
         [.filesList (search_query q) n])) ∧
    (denv.filesList (list_query fid) n = .error e →
      _list_documents_sync denv fid n =
        (.error ⟨"Failed to list documents from Google Drive: " ++ e.msg⟩,
         [.filesList (list_query fid) n])) ∧
    (denv.filesGet doc_id = .error e →
      _read_document_sync denv doc_id fmt =
        (.error ⟨"Failed to read document from Google Drive: " ++ e.msg⟩,
         [.filesGet doc_id])) ∧
    (denv.filesGet doc_id = .ok meta → meta.mimeType = some (mimeOf "document") →
      str_lower fmt = "html" → denv.filesExport doc_id "text/html" = .error e →
      (_read_document_sync denv doc_id fmt).1 =
        .error ⟨"Failed to read document from Google Drive: " ++ e.msg⟩) ∧
    (_search_docs_sync denv q n).2.Nodup ∧
    (_list_documents_sync denv fid n).2.Nodup ∧
    (_read_document_sync denv doc_id fmt).2.Nodup := by
  refine ⟨?_, ?_, ?_, ?_, ?_, ?_, read_trace_nodup denv doc_id fmt⟩
  · intro h; simp [_search_docs_sync, h]
  · intro h; simp [_list_documents_sync, h]
  · intro h; simp [_read_document_sync, h]
  · intro hm hmime hfmt hexp
    simp [_read_document_sync, hm, read_step, hmime, _export_document, hfmt, hexp, beq_iff_eq]
  · unfold _search_docs_sync
    rcases h : denv.filesList (search_query q) n with e' | files <;> simp [h]
  · unfold _list_documents_sync
    rcases h : denv.filesList (list_query fid) n with e' | files <;> simp [h]

/-- Witness for C2 amended: a failing listing in `envErr` is re-raised as
a `RuntimeError` carrying the original message `boom`. -/
theorem c2_amended_unrecovered_errors_reraised_no_retry_witness :
    _search_docs_sync envErr "q" 5 =
      (.error ⟨"Failed to search Google Drive: boom"⟩,
       [.filesList (search_query "q") 5]) :=
  (c2_amended_unrecovered_errors_reraised_no_retry envErr "q" 5 none "d1" "markdown"
    ⟨"d1", "d", none, none⟩ ⟨"boom"⟩).1 rfl

/-- C3 counterexample: with a token file holding an expired credential
that has no refresh token, and no client-secret file, client
construction keeps the expired credential (it is non-None, so the
presence-only check accepts it), builds the service with it, and a
search then issues a remote call and succeeds — the program neither
obtained a non-expired credential nor failed the operation. -/
theorem c3_counterexample_expired_credential_used :
    expiredCred.valid = false ∧
    (clientInit aenvC3).1 = ⟨some expiredCred, some expiredCred⟩ ∧
    search_docs aenvC3 denvEmpty (clientInit aenvC3).1 "q" 10 =
      (.ok [], [.filesList (search_query "q") 10]) :=
  ⟨rfl, rfl, rfl⟩

/-- C3 amended: no remote API call is issued unless a Credential object
(possibly expired) was first obtained; when no credential at all can be
obtained, every operation (search, read, list) raises the uniform
`RuntimeError` without issuing any remote call; and whenever a search
issued at least one remote call, the service guard had obtained some
credential. -/
theorem c3_amended_service_guard (aenv : AuthEnv) (denv : DriveEnv)
    (st : ClientState) (q d : String) (fid : Option String) (n : Nat)
    (h : st.service = none) (h2 : (get_credentials aenv st.mgr).1 = none) :
    search_docs aenv denv st q n =
      (.error ⟨"Google Drive API service not available"⟩, []) ∧
    read_document aenv denv st d "markdown" =
      (.error ⟨"Google Drive API service not available"⟩, []) ∧
    list_documents aenv denv st fid n =
      (.error ⟨"Google Drive API service not available"⟩, []) ∧
    (∀ q' n', (search_docs aenv denv st q' n').2 ≠ [] →
      ∃ cred, (ensure_service aenv st).1 = .ok cred) := by
  have he : (ensure_service aenv st).1 =
      .error ⟨"Google Drive API service not available"⟩ := by
    unfold ensure_service init_service
    rw [h]
    simp [h2]
  refine ⟨?_, ?_, ?_, ?_⟩
  · unfold search_docs; rw [he]
  · unfold read_document; rw [he]
  · unfold list_documents; rw [he]
  · intro q' n' hne
    unfold search_docs at hne
    rw [he] at hne
    simp at hne

/-- Witness for C3 amended: with no token file and no client-secret file,
a search on a client with no service fails with the uniform error and
issues no remote call. -/
theorem c3_amended_service_guard_witness :
    search_docs aenvNoAuth denvEmpty ⟨none, none⟩ "q" 5 =
      (.error ⟨"Google Drive API service not available"⟩, []) :=
  (c3_amended_service_guard aenvNoAuth denvEmpty ⟨none, none⟩ "q" "d" none 5 rfl rfl).1

/-- C4: for a persisted credential that is expired and has a refresh
token, loading the credentials performs exactly one refresh call and
persists the refreshed token to the token file before the refreshed
credential is returned (the event trace is exactly a refresh followed by
a save of the refreshed credential). -/
theorem c4_refresh_once_and_persist (env : AuthEnv) (c c' : Credentials)
    (htf : env.token_file = some (.ok c))
    (hexp : c.expired = true) (hrt : c.refresh_token.isSome)
    (href : env.refresh_result = .ok c') (hval : c'.valid = true) :
    _load_credentials env = (some c', [.refreshCall, .saveToken c']) ∧
    (_load_credentials env).2.count AuthEvent.refreshCall = 1 := by
  have h : _load_credentials env = (some c', [.refreshCall, .saveToken c']) := by
    unfold _load_credentials
    rw [htf]
    simp [hexp, hrt, href, hval, _save_token]
  exact ⟨h, by rw [h]; simp [List.count_cons]⟩

/-- Witness for C4: the expired `oldCred` with a refresh token is
refreshed once to `newCred`, which is saved and returned. -/
theorem c4_refresh_once_and_persist_witness :
    _load_credentials aenvC4 = (some newCred, [.refreshCall, .saveToken newCred]) ∧
    (_load_credentials aenvC4).2.count AuthEvent.refreshCall = 1 :=
  c4_refresh_once_and_persist aenvC4 oldCred newCred rfl rfl rfl rfl rfl

/-- C5: a search issues exactly one remote query, whose filter is
precisely the spec's — restricted to the three supported document types
(document, spreadsheet, presentation, never folder) and matching the
query against name or full text — with the page size set to
`max_results`; the result maps the API's files in their order, and (the
API honouring the page size) has at most `max_results` entries. -/
theorem c5_search_filter_order_limit (denv : DriveEnv) (q : String) (n : Nat)
    (files : List DriveFile)
    (hok : denv.filesList (search_query q) n = .ok files)
    (hlen : files.length ≤ n) :
    search_query q = search_query_spec q ∧
    _search_docs_sync denv q n =
      (.ok (files.map fileToDescriptor), [.filesList (search_query q) n]) ∧
    (∀ r, (_search_docs_sync denv q n).1 = .ok r → r.length ≤ n) := by
  have h2 : _search_docs_sync denv q n =
      (.ok (files.map fileToDescriptor), [.filesList (search_query q) n]) := by
    simp [_search_docs_sync, hok]
  refine ⟨rfl, h2, ?_⟩
  intro r hr
  rw [h2] at hr
  simp at hr
  subst hr
  simpa using hlen

/-- Witness for C5: searching `report` with `max_results = 5` against a
fixture of two files returns both, in order, as descriptors. -/
theorem c5_search_filter_order_limit_witness :
    _search_docs_sync denvList "report" 5 =
      (.ok (twoFiles.map fileToDescriptor), [.filesList (search_query "report") 5]) :=
  (c5_search_filter_order_limit denvList "report" 5 twoFiles rfl (by decide)).2.1

/-- C6: for a spreadsheet-type file whose CSV export fails with an API
error, the read falls back to the plain-text export of the same file and
returns its content as a successful (non-error) result. -/
theorem c6_spreadsheet_csv_fallback (env : DriveEnv) (sheet_id format : String)
    (meta : FileMetadata) (e : HttpError) (s : String)
    (hmeta : env.filesGet sheet_id = .ok meta)
    (hmime : meta.mimeType = some (mimeOf "spreadsheet"))
    (hcsv : env.filesExport sheet_id "text/csv" = .error e)
    (htxt : env.filesExport sheet_id "text/plain" = .ok s) :
    (_read_document_sync env sheet_id format).1 =
      .ok { id := meta.id, name := meta.name, type := "spreadsheet",
            modified := meta.modifiedTime.getD "", content := s } := by
  simp [_read_document_sync, hmeta, hmime, read_step, _export_spreadsheet, hcsv, htxt,
    _get_file_type, mimeOf, MIME_TYPES]

/-- Witness for C6: the sheet in `envC6` has a failing CSV export, and
reading it returns the plain-text export content. -/
theorem c6_spreadsheet_csv_fallback_witness :
    (_read_document_sync envC6 "s1" "text").1 =
      .ok { id := "s1", name := "Budget Sheet", type := "spreadsheet",
            modified := "2024-04-04", content := "a,b\n1,2\n" } :=
  c6_spreadsheet_csv_fallback envC6 "s1" "text"
    ⟨"s1", "Budget Sheet", some "application/vnd.google-apps.spreadsheet", some "2024-04-04"⟩
    ⟨"CSV export out of quota"⟩ "a,b\n1,2\n" rfl rfl rfl rfl

/-- C7: the tool adapter registers exactly three operations, named
`gdocs_search`, `gdocs_read` and `gdocs_list`; each handler returns the
document client's result wrapped as `{results: ...}`, `{content: ...}`
or `{docs: ...}` with no other reshaping, and the defaults are
`max_results = 10` for search, `format = "markdown"` for read and
`max_results = 20` (with no folder) for list. -/
theorem c7_tool_adapter_registration :
    registered_tools.map ToolReg.name = ["gdocs_search", "gdocs_read", "gdocs_list"] ∧
    registered_tools.length = 3 ∧
    (∀ aenv denv st q, gdocs_search aenv denv st q =
      (search_docs aenv denv st q 10).1.map Envelope.results) ∧
    (∀ aenv denv st d, gdocs_read aenv denv st d =
      (read_document aenv denv st d "markdown").1.map Envelope.content) ∧
    (∀ aenv denv st, gdocs_list aenv denv st =
      (list_documents aenv denv st none 20).1.map Envelope.docs) ∧
    (∀ aenv denv st q n, gdocs_search aenv denv st q n =
      (search_docs aenv denv st q n).1.map Envelope.results) ∧
    (∀ aenv denv st d f, gdocs_read aenv denv st d f =
      (read_document aenv denv st d f).1.map Envelope.content) ∧
    (∀ aenv denv st fid n, gdocs_list aenv denv st fid n =
      (list_documents aenv denv st fid n).1.map Envelope.docs) :=
  ⟨rfl, rfl, fun _ _ _ _ => rfl, fun _ _ _ _ => rfl, fun _ _ _ => rfl,
    fun _ _ _ _ _ => rfl, fun _ _ _ _ _ => rfl, fun _ _ _ _ _ => rfl⟩

/-- C8: listing with `folder_id = ""` behaves exactly like listing with
no folder (the empty string is falsy, so no parent filter is added and
the queries coincide), while a non-empty `folder_id` yields the
folder-scoped query. -/
theorem c8_empty_folder_id_unscoped (env : DriveEnv) (n : Nat) (fid : String)
    (hf : fid ≠ "") :
    _list_documents_sync env (some "") n = _list_documents_sync env none n ∧
    list_query (some "") = "(" ++ mime_filter ++ ")" ∧
    list_query none = "(" ++ mime_filter ++ ")" ∧
    list_query (some fid) = "(" ++ mime_filter ++ ") and '" ++ fid ++ "' in parents" := by
  refine ⟨rfl, rfl, rfl, ?_⟩
  simp [list_query, pyTruthy, beq_iff_eq, hf]

/-- Witness for C8: a concrete non-empty folder id produces the scoped
query while the empty string lists unscoped. -/
theorem c8_empty_folder_id_unscoped_witness :
    _list_documents_sync denvList (some "") 20 = _list_documents_sync denvList none 20 ∧
    list_query (some "folder-123") =
      "(" ++ mime_filter ++ ") and '" ++ "folder-123" ++ "' in parents" := by
  have h := c8_empty_folder_id_unscoped denvList 20 "folder-123" (by decide)
  exact ⟨h.1, h.2.2.2⟩

/-- C9: for a file that is none of the three Google types, a failing raw
download does not raise — the read succeeds with the fixed placeholder
`[Error retrieving file content]` — and a download of bytes that are not
valid UTF-8 succeeds with `[Binary content not displayed]`. -/
theorem c9_file_content_error_placeholders (env : DriveEnv)
    (file_id format mt : String) (meta : FileMetadata)
    (hmeta : env.filesGet file_id = .ok meta)
    (hmt : meta.mimeType.getD "" = mt)
    (h1 : mt ≠ mimeOf "document") (h2 : mt ≠ mimeOf "spreadsheet")
    (h3 : mt ≠ mimeOf "presentation") :
    (∀ e, env.getMedia file_id = .error e →
      (_read_document_sync env file_id format).1 =
        .ok { id := meta.id, name := meta.name, type := _get_file_type mt,
              modified := meta.modifiedTime.getD "",
              content := "[Error retrieving file content]" }) ∧
    (env.getMedia file_id = .ok .binary →
      (_read_document_sync env file_id format).1 =
        .ok { id := meta.id, name := meta.name, type := _get_file_type mt,
              modified := meta.modifiedTime.getD "",
              content := "[Binary content not displayed]" }) := by
  constructor
  · intro e herr
    simp [_read_document_sync, hmeta, hmt, read_step, _get_file_content, herr,
      h1, h2, h3, beq_iff_eq]
  · intro hbin
    simp [_read_document_sync, hmeta, hmt, read_step, _get_file_content, hbin,
      h1, h2, h3, beq_iff_eq]

/-- Witness for C9: reading the plain file of `envC2`, whose download
fails, returns the error placeholder as successful content. -/
theorem c9_file_content_error_placeholders_witness :
    (_read_document_sync envC2 "f1" "text").1 =
      .ok { id := "f1", name := "notes.txt", type := "file",
            modified := "2024-02-02T00:00:00Z",
            content := "[Error retrieving file content]" } :=
  (c9_file_content_error_placeholders envC2 "f1" "text" "text/plain"
    ⟨"f1", "notes.txt", some "text/plain", some "2024-02-02T00:00:00Z"⟩
    rfl rfl (by decide) (by decide) (by decide)).1 ⟨"HttpError 403 rate limit"⟩ rfl

/-- C10: for a document-type file, any format whose lowercasing is
neither `html` nor `markdown` (such as `text`, `Text` or `pdf`) is
exported as plain text (`text/plain`) and returned unchanged, and the
matching is case-insensitive (`HTML` selects the HTML export). -/
theorem c10_default_plaintext_export (env : DriveEnv) (doc_id format : String)
    (h1 : str_lower format ≠ "html") (h2 : str_lower format ≠ "markdown") :
    _export_document env doc_id format =
      (env.filesExport doc_id "text/plain", [.filesExport doc_id "text/plain"]) ∧
    _export_document env doc_id "HTML" =
      (env.filesExport doc_id "text/html", [.filesExport doc_id "text/html"]) ∧
    _export_document env doc_id "Text" =
      (env.filesExport doc_id "text/plain", [.filesExport doc_id "text/plain"]) ∧
    _export_document env doc_id "pdf" =
      (env.filesExport doc_id "text/plain", [.filesExport doc_id "text/plain"]) := by
  refine ⟨?_, rfl, rfl, rfl⟩
  simp [_export_document, h1, h2, beq_iff_eq]

/-- Witness for C10: in the echoing environment, exporting with format
`text` yields the plain-text export. -/
theorem c10_default_plaintext_export_witness :
    _export_document envEcho "d1" "text" =
      (envEcho.filesExport "d1" "text/plain", [.filesExport "d1" "text/plain"]) :=
  (c10_default_plaintext_export envEcho "d1" "text" (by decide) (by decide)).1

end GdocsMcp
